import Mathlib

/-!
Verification of the minio `internal/http` server lifecycle and the
`internal/logger/target/http` webhook delivery target.

The Go source is embedded shallowly: each Go function that the claims
touch becomes a Lean definition mirroring its control flow; machine
counters become `Nat`/`Int` (with an explicit modulus where Go's
`uint32` wraparound could matter); concurrency is modelled as an
interleaving transition system over an explicit target state where a
single claim needs it.
-/

namespace MinioHttp

/-- Atomic `status` field of a `Target` (`statusOffline`, `statusOnline`,
`statusClosed` in the source). -/
inductive Status where
  | offline
  | online
  | closed
deriving DecidableEq, Repr

/-- The `maxWorkers` constant: "the maximum number of concurrent operations". -/
def maxWorkers : Nat := 16

/-! ## `Target.Send` (single call, in-memory channel path)

`SendObs` is the state a single `Send` call observes: whether the durable
store handle is set (`h.store != nil`), the atomic `status`, whether the
channel reference is still non-nil, channel length and capacity, the
result of the `IsOnline` probe, the worker counter, and the time since
`lastStarted` in milliseconds. -/

structure SendObs where
  hasStore : Bool
  status : Status
  chAlive : Bool
  chLen : Nat
  chCap : Nat
  remoteOnline : Bool
  workers : Nat
  msSinceLastStarted : Nat
  storePutFails : Bool
deriving DecidableEq, Repr

/-- Which branch of `Target.Send` is taken.  `blockingEnqueue spawned`
is the `nWorkers < maxWorkers` branch: it performs `h.logCh <- entry`,
a blocking channel send, after spawning a new worker iff more than one
second elapsed since `lastStarted`. -/
inductive SendOutcome where
  | storePut
  | droppedClosed
  | droppedNilChannel
  | enqueued
  | fullOffline
  | blockingEnqueue (spawned : Bool)
  | fullMaxWorkers
deriving DecidableEq, Repr

/-- True exactly when the branch waits on the in-memory channel
(`h.logCh <- entry` outside the non-blocking `select`). -/
def SendOutcome.blocksOnChannel : SendOutcome → Bool
  | .blockingEnqueue _ => true
  | _ => false

/-- Result of one `Send` call: branch taken, deltas applied to the
atomic `totalMessages` / `failedMessages` counters by `Send` itself,
and whether a non-nil error is returned. -/
structure SendResult where
  outcome : SendOutcome
  dTotal : Nat
  dFailed : Nat
  isErr : Bool
deriving DecidableEq, Repr

/-- Model of `Target.Send`, mirroring the Go control flow:
store short-circuit, closed check, nil-channel check, non-blocking
`select`, then the full-channel branches (`IsOnline` probe, worker
count, rate-limited spawn followed by a blocking enqueue, buffer-full
error). -/
def sendCall (s : SendObs) : SendResult :=
  if s.hasStore then
    { outcome := .storePut, dTotal := 0, dFailed := 0, isErr := s.storePutFails }
  else if s.status = .closed then
    { outcome := .droppedClosed, dTotal := 0, dFailed := 0, isErr := false }
  else if ¬s.chAlive then
    { outcome := .droppedNilChannel, dTotal := 0, dFailed := 0, isErr := false }
  else if s.chLen < s.chCap then
    { outcome := .enqueued, dTotal := 0, dFailed := 0, isErr := false }
  else if ¬s.remoteOnline then
    { outcome := .fullOffline, dTotal := 1, dFailed := 1, isErr := true }
  else if s.workers < maxWorkers then
    { outcome := .blockingEnqueue (1000 < s.msSinceLastStarted),
      dTotal := 0, dFailed := 0, isErr := false }
  else
    { outcome := .fullMaxWorkers, dTotal := 1, dFailed := 1, isErr := true }

/-- The two message counters of a `Target`. -/
structure Counters where
  total : Nat
  failed : Nat
deriving DecidableEq, Repr

/-- Snapshot returned by `Target.Stats`. -/
structure TargetStats where
  totalMessages : Nat
  failedMessages : Nat
  queueLength : Nat
deriving DecidableEq, Repr

/-- Model of `Target.Stats`: reads the two atomic counters and `len(h.logCh)`. -/
def stats (c : Counters) (queueLen : Nat) : TargetStats :=
  { totalMessages := c.total, failedMessages := c.failed, queueLength := queueLen }

/-- Apply the counter deltas of one `Send` call. -/
def applySend (c : Counters) (r : SendResult) : Counters :=
  { total := c.total + r.dTotal, failed := c.failed + r.dFailed }

/-! ## `Target.logEntry` (worker retry loop)

The loop is driven by two oracles: `fails a` tells whether the `a`-th
send attempt fails, and `closed t` tells whether the atomic status reads
`statusClosed` at the loop-top check performed when `tries = t`.  The
recursion is on explicit fuel; fuel `11` is enough since `tries` never
passes `10`. -/

/-- Sleep performed before a retry when `tries` attempts have completed:
`(tries+2)^2` milliseconds, clamped at one second. -/
def retrySleepMs (tries : Nat) : Nat := min ((tries + 2) ^ 2) 1000

/-- Observable trace of one `logEntry` call. -/
structure RetryTrace where
  attempts : Nat
  sleeps : List Nat
  logOnceCalls : Nat
  dFailed : Nat
  closedStop : Bool
  delivered : Bool
deriving DecidableEq, Repr

/-- The `for` loop of `Target.logEntry`, entered with `tries = t`. -/
def logEntryLoop (fails closed : Nat → Bool) : Nat → Nat → RetryTrace
  | 0, t => ⟨t, [], 0, 0, false, false⟩
  | fuel + 1, t =>
    if 0 < t then
      if 10 ≤ t then ⟨t, [], 0, 0, false, false⟩
      else if closed t then ⟨t, [], 0, 0, true, false⟩
      else if fails (t + 1) then
        ⟨(logEntryLoop fails closed fuel (t + 1)).attempts,
          retrySleepMs t :: (logEntryLoop fails closed fuel (t + 1)).sleeps,
          (logEntryLoop fails closed fuel (t + 1)).logOnceCalls + 1,
          (logEntryLoop fails closed fuel (t + 1)).dFailed + 1,
          (logEntryLoop fails closed fuel (t + 1)).closedStop,
          (logEntryLoop fails closed fuel (t + 1)).delivered⟩
      else ⟨t + 1, [retrySleepMs t], 0, 0, false, true⟩
    else
      if fails (t + 1) then
        ⟨(logEntryLoop fails closed fuel (t + 1)).attempts,
          (logEntryLoop fails closed fuel (t + 1)).sleeps,
          (logEntryLoop fails closed fuel (t + 1)).logOnceCalls + 1,
          (logEntryLoop fails closed fuel (t + 1)).dFailed + 1,
          (logEntryLoop fails closed fuel (t + 1)).closedStop,
          (logEntryLoop fails closed fuel (t + 1)).delivered⟩
      else ⟨t + 1, [], 0, 0, false, true⟩

/-- Model of `Target.logEntry`: marshal the entry (on failure, bump
`failedMessages` and return), then run the retry loop from `tries = 0`. -/
def logEntry (marshalOk : Bool) (fails closed : Nat → Bool) : RetryTrace :=
  if marshalOk then logEntryLoop fails closed 11 0
  else ⟨0, [], 0, 1, false, false⟩

/-- Oracle for a remote that rejects the first two attempts. -/
def failsUntil3 : Nat → Bool := fun a => decide (a < 3)

/-- Oracle for a status that never reads `Closed`. -/
def closedNever : Nat → Bool := fun _ => false

/-! ## Target lifecycle transition system

Used for the claims about `Cancel` and about the worker bound.  One
step is one atomic Go action; environment facts (result of the
`IsOnline` probe, whether a second has elapsed since `lastStarted`) are
step parameters.  `pending` counts producers blocked inside the
blocking `h.logCh <- entry` of `Send`'s full-channel branch. -/

structure TState where
  queueDir : Bool
  cap : Nat
  status : Status
  workers : Nat
  chAlive : Bool
  chLen : Nat
  pending : Nat
  storeLive : Bool
  storeEntries : Nat
  total : Nat
  failed : Nat
  reviveArmed : Bool
  reviveLive : Bool
deriving DecidableEq, Repr

/-- Model of `New(config)`: channel of capacity `QueueSize`, status Offline, no
store handle yet, no workers. -/
def newTarget (queueDir : Bool) (cap : Nat) : TState :=
  { queueDir := queueDir, cap := cap, status := .offline, workers := 0,
    chAlive := true, chLen := 0, pending := 0, storeLive := false,
    storeEntries := 0, total := 0, failed := 0,
    reviveArmed := false, reviveLive := false }

/-- One atomic action of the target or of one of its callers/workers. -/
inductive TStep where
  | initStore
  | sendStore
  | sendEnq
  | sendClosed
  | sendFullOffline
  | sendFullSpawn (elapsed : Bool)
  | sendFullMax
  | initChan (remoteOnline : Bool)
  | reviveTick (remoteOnline : Bool)
  | workerTake
  | workerExit
  | cancel
deriving DecidableEq, Repr

/-- Guarded small-step semantics; `none` means the step is not enabled
in this state.

* `initStore`: `Init` with `QueueDir` configured sets the store handle
  (once-guarded).
* `sendStore`: `Send` with `h.store != nil` puts the entry in the store
  unconditionally (this runs before any status check in the source).
* `sendEnq` / `sendClosed` / `sendFullOffline` / `sendFullSpawn` /
  `sendFullMax`: the branches of `Send` on the channel path; the spawn
  branch increments `workers` only when a second has elapsed, and then
  blocks the producer (`pending`) in `h.logCh <- entry`.
* `initChan`: `Init` without `QueueDir`; on Offline it either arms the
  revive goroutine (probe failed) or CASes to Online and starts a
  worker.
* `reviveTick`: one tick of the revive goroutine.
* `workerTake`: a worker receives from the channel (bumping
  `totalMessages`); a blocked producer immediately refills the slot.
* `workerExit`: a worker exits; `range logCh` ends only once the
  channel is closed and drained.
* `cancel`: `Cancel()` stores Closed, closes and nils the channel; it
  must wait for producers holding the read lock. -/
def stepFn (s : TState) : TStep → Option TState
  | .initStore =>
    if s.queueDir ∧ ¬s.storeLive then some { s with storeLive := true } else none
  | .sendStore =>
    if s.storeLive then some { s with storeEntries := s.storeEntries + 1 } else none
  | .sendEnq =>
    if ¬s.storeLive ∧ s.status ≠ .closed ∧ s.chAlive ∧ s.chLen < s.cap then
      some { s with chLen := s.chLen + 1 }
    else none
  | .sendClosed =>
    if ¬s.storeLive ∧ (s.status = .closed ∨ ¬s.chAlive) then some s else none
  | .sendFullOffline =>
    if ¬s.storeLive ∧ s.status ≠ .closed ∧ s.chAlive ∧ s.cap ≤ s.chLen then
      some { s with total := s.total + 1, failed := s.failed + 1 }
    else none
  | .sendFullSpawn elapsed =>
    if ¬s.storeLive ∧ s.status ≠ .closed ∧ s.chAlive ∧ s.cap ≤ s.chLen ∧
        s.workers < maxWorkers then
      some { s with workers := if elapsed then s.workers + 1 else s.workers,
                    pending := s.pending + 1 }
    else none
  | .sendFullMax =>
    if ¬s.storeLive ∧ s.status ≠ .closed ∧ s.chAlive ∧ s.cap ≤ s.chLen ∧
        maxWorkers ≤ s.workers then
      some { s with total := s.total + 1, failed := s.failed + 1 }
    else none
  | .initChan remoteOnline =>
    if s.queueDir then none
    else
      match s.status with
      | .online => some s
      | .closed => some s
      | .offline =>
        if remoteOnline then
          some { s with status := .online, workers := s.workers + 1 }
        else if ¬s.reviveArmed then
          some { s with reviveArmed := true, reviveLive := true }
        else some s
  | .reviveTick remoteOnline =>
    if s.reviveLive then
      if s.status ≠ .offline then some { s with reviveLive := false }
      else if remoteOnline then
        some { s with status := .online, workers := s.workers + 1, reviveLive := false }
      else some s
    else none
  | .workerTake =>
    if 0 < s.workers ∧ 0 < s.chLen then
      some { s with chLen := if 0 < s.pending then s.chLen else s.chLen - 1,
                    pending := s.pending - 1,
                    total := s.total + 1 }
    else none
  | .workerExit =>
    if 0 < s.workers ∧ ¬s.chAlive ∧ s.chLen = 0 then
      some { s with workers := s.workers - 1 }
    else none
  | .cancel =>
    if s.status ≠ .closed ∧ s.pending = 0 then
      some { s with status := .closed, chAlive := false }
    else none

/-- Run a list of steps; the whole run fails if any step is disabled. -/
def run (s : TState) (steps : List TStep) : Option TState :=
  steps.foldl (fun acc e => acc.bind (fun u => stepFn u e)) (some s)

/-- Trace exhibiting 17 live workers: fill a capacity-1 channel, then 16
full-channel `Send` calls each spawn a worker (a worker drains one slot
so the blocked producer completes), with the status still Offline; a
final `Init` finds the probe succeeding, CASes Offline to Online and
unconditionally starts one more worker. -/
def seventeenTrace : List TStep :=
  TStep.sendEnq :: (List.replicate 16 [TStep.sendFullSpawn true, TStep.workerTake]).flatten
    ++ [TStep.initChan true]

/-- Trace for a store-backed target: `Init` opens the store, `Cancel`
closes the target, then one more `Send` call. -/
def storeAfterCancelTrace : List TStep := [.initStore, .cancel, .sendStore]

/-- A concrete closed state of a store-less target (as left by `Cancel`
with one worker still draining a buffered entry). -/
def closedDraining : TState :=
  { queueDir := false, cap := 2, status := .closed, workers := 1,
    chAlive := false, chLen := 1, pending := 0, storeLive := false,
    storeEntries := 0, total := 3, failed := 1,
    reviveArmed := false, reviveLive := false }

/-- State `closedDraining` after one `workerTake` step. -/
def closedDrained : TState :=
  { queueDir := false, cap := 2, status := .closed, workers := 1,
    chAlive := false, chLen := 0, pending := 0, storeLive := false,
    storeEntries := 0, total := 4, failed := 1,
    reviveArmed := false, reviveLive := false }

/-- Concrete `Send` observation: store-less target, full channel of
capacity 4, remote reachable, one busy worker started half a second
ago. -/
def fullOnlineObs : SendObs :=
  { hasStore := false, status := .online, chAlive := true, chLen := 4, chCap := 4,
    remoteOnline := true, workers := 1, msSinceLastStarted := 500, storePutFails := false }

/-- Concrete `Send` observation: store-less target, full channel,
remote offline. -/
def fullOfflineObs : SendObs :=
  { hasStore := false, status := .online, chAlive := true, chLen := 4, chCap := 4,
    remoteOnline := false, workers := 1, msSinceLastStarted := 500, storePutFails := false }

/-- Concrete `Send` observation of a closed store-less target. -/
def closedObs : SendObs :=
  { hasStore := false, status := .closed, chAlive := false, chLen := 0, chCap := 4,
    remoteOnline := false, workers := 0, msSinceLastStarted := 0, storePutFails := false }

/-! ## Server: wrapped handler, Shutdown, Init, NewServer -/

/-- What an HTTP response looks like to the claims: status code, whether
the `Connection: close` header was set, body. -/
structure HttpResponse where
  statusCode : Nat
  connectionClose : Bool
  body : String
deriving DecidableEq, Repr

/-- Message of `http.ErrServerClosed.Error()`. -/
def errServerClosedMessage : String := "http: Server closed"

/-- Observable outcome of one wrapped-handler invocation: the response
(`none` models the user handler panicking before writing), the value of
`requestCount` while the user handler runs (`none` when it is never
invoked), the value after return, and whether the user handler ran. -/
structure HandlerRun where
  response : Option HttpResponse
  countDuring : Option Int
  countAfter : Int
  userInvoked : Bool
deriving DecidableEq, Repr

/-- The handler wrapper installed by `Server.Init`: shutdown gate, then
atomic increment, deferred decrement, user handler. -/
def wrappedHandler (inShutdown : Nat) (requestCount : Int)
    (userResponse : Option HttpResponse) : HandlerRun :=
  if inShutdown ≠ 0 then
    { response := some { statusCode := 503, connectionClose := true,
                         body := errServerClosedMessage },
      countDuring := none, countAfter := requestCount, userInvoked := false }
  else
    { response := userResponse,
      countDuring := some (requestCount + 1),
      countAfter := requestCount,
      userInvoked := true }

/-- Outcome of the entry portion of `Server.Shutdown`. -/
inductive ShutdownOutcome where
  | errServerClosed
  | closeError
  | pollDrain
deriving DecidableEq, Repr

/-- Modulus of Go's `uint32`. -/
def uint32Mod : Nat := 4294967296

/-- Result of one `Shutdown` call: outcome and the `inShutdown` counter
afterwards. -/
structure ShutdownResult where
  outcome : ShutdownOutcome
  inShutdownAfter : Nat
deriving DecidableEq, Repr

/-- Model of `Server.Shutdown` up to the drain poll: nil-listener check, then
`atomic.AddUint32(&inShutdown, 1) > 1` check, then `listener.Close()`;
`pollDrain` stands for reaching the drain-polling loop. -/
def shutdownEntry (hasListener : Bool) (inShutdown : Nat) (closeFails : Bool) :
    ShutdownResult :=
  if ¬hasListener then { outcome := .errServerClosed, inShutdownAfter := inShutdown }
  else
    let n := (inShutdown + 1) % uint32Mod
    if 1 < n then { outcome := .errServerClosed, inShutdownAfter := n }
    else if closeFails then { outcome := .closeError, inShutdownAfter := n }
    else { outcome := .pollDrain, inShutdownAfter := n }

/-- The per-address loop of `Server.Init`: returns whether any address
bound (`interfaceFound`) and the callback invocations, in order. -/
def initScan : List (String × Option String) → Bool × List (String × String)
  | [] => (false, [])
  | (a, e) :: rest =>
    let r := initScan rest
    match e with
    | some msg => (r.1, (a, msg) :: r.2)
    | none => (true, r.2)

/-- Result of `Server.Init`: whether a serve closure was returned, the
error, and the listen-error callback invocations. -/
structure ServerInitResult where
  serveReady : Bool
  errMsg : Option String
  callbacks : List (String × String)
deriving DecidableEq, Repr

/-- Model of `Server.Init` given the per-address results of `newHTTPListener`
(`none` = the address bound, `some msg` = it failed with that error). -/
def serverInit (addrs : List String) (listenErrs : List (Option String)) :
    ServerInitResult :=
  let r := initScan (addrs.zip listenErrs)
  if r.1 then { serveReady := true, errMsg := none, callbacks := r.2 }
  else { serveReady := false, errMsg := some "no available interface found", callbacks := r.2 }

/-- Value of `humanize.MiByte`. -/
def mib : Nat := 1048576

/-- Constant `DefaultShutdownTimeout = 5 * time.Second`, in nanoseconds. -/
def defaultShutdownTimeoutNs : Nat := 5000000000

/-- Constant `DefaultIdleTimeout = 30 * time.Second`, in nanoseconds. -/
def defaultIdleTimeoutNs : Nat := 30000000000

/-- Constant `DefaultReadHeaderTimeout = 30 * time.Second`, in nanoseconds. -/
def defaultReadHeaderTimeoutNs : Nat := 30000000000

/-- Constant `DefaultMaxHeaderBytes = 1 * humanize.MiByte`. -/
def defaultMaxHeaderBytes : Nat := mib

/-- The `Server` fields the defaults claim is about.  Go zero-initializes
struct fields, so unset durations are `0`. -/
structure GoServer where
  addrs : List String
  maxHeaderBytes : Nat
  idleTimeoutNs : Nat
  readHeaderTimeoutNs : Nat
  shutdownTimeoutNs : Nat
deriving DecidableEq, Repr

/-- Model of `NewServer(addrs)`: sets `Addrs` and `MaxHeaderBytes` only; every
other field keeps its zero value. -/
def newServer (addrs : List String) : GoServer :=
  { addrs := addrs, maxHeaderBytes := defaultMaxHeaderBytes,
    idleTimeoutNs := 0, readHeaderTimeoutNs := 0, shutdownTimeoutNs := 0 }

/-- Setter `Server.UseShutdownTimeout`. -/
def useShutdownTimeout (s : GoServer) (d : Nat) : GoServer :=
  { s with shutdownTimeoutNs := d }

/-- Setter `Server.UseIdleTimeout`. -/
def useIdleTimeout (s : GoServer) (d : Nat) : GoServer :=
  { s with idleTimeoutNs := d }

/-- Setter `Server.UseReadHeaderTimeout`. -/
def useReadHeaderTimeout (s : GoServer) (d : Nat) : GoServer :=
  { s with readHeaderTimeoutNs := d }

/-! ## `Target.SendFromStore` -/

/-- Result of `h.store.Get(key)`. -/
inductive StoreGet where
  | found
  | notExist
  | getFailure
deriving DecidableEq, Repr

/-- Result of the HTTP send inside `SendFromStore`. -/
inductive NetSend where
  | delivered
  | netDown
  | rejected
deriving DecidableEq, Repr

/-- Error value returned by `SendFromStore` (`ok` = nil). -/
inductive StoreSendReturn where
  | ok
  | errNotConnected
  | sendError
  | getError
  | marshalError
  | delError
deriving DecidableEq, Repr

/-- Observable result of one `SendFromStore` call. -/
structure StoreSendResult where
  ret : StoreSendReturn
  dTotal : Nat
  dFailed : Nat
  delCalled : Bool
deriving DecidableEq, Repr

/-- Model of `Target.SendFromStore`, mirroring the Go control flow: `Get` (with
`os.IsNotExist` treated as success), `totalMessages++`, marshal, send
(`failedMessages++` on failure, then the `IsNetworkOrHostDown` split),
`Del` on success. -/
def sendFromStore (get : StoreGet) (marshalOk : Bool) (send : NetSend)
    (delOk : Bool) : StoreSendResult :=
  match get with
  | .notExist => { ret := .ok, dTotal := 0, dFailed := 0, delCalled := false }
  | .getFailure => { ret := .getError, dTotal := 0, dFailed := 0, delCalled := false }
  | .found =>
    if ¬marshalOk then
      { ret := .marshalError, dTotal := 1, dFailed := 1, delCalled := false }
    else
      match send with
      | .delivered =>
        { ret := if delOk then .ok else .delError, dTotal := 1, dFailed := 0,
          delCalled := true }
      | .netDown =>
        { ret := .errNotConnected, dTotal := 1, dFailed := 1, delCalled := false }
      | .rejected =>
        { ret := .sendError, dTotal := 1, dFailed := 1, delCalled := false }

/-! ## Theorems -/

/-- The `interfaceFound` flag of the `Init` loop is set iff some address
bound. -/
theorem initScan_found (l : List (String × Option String)) :
    (initScan l).1 = (l.any fun p => p.2.isNone) := by
  induction l with
  | nil => rfl
  | cons x xs ih =>
    obtain ⟨a, e⟩ := x
    cases e <;> simp [initScan, ih]

/-- The callback invocations of the `Init` loop are exactly the failing
(address, error) pairs, in order. -/
theorem initScan_callbacks (l : List (String × Option String)) :
    (initScan l).2 = l.filterMap fun p => p.2.map fun m => (p.1, m) := by
  induction l with
  | nil => rfl
  | cons x xs ih =>
    obtain ⟨a, e⟩ := x
    cases e <;> simp [initScan, ih]

/-- With one listen result per address, scanning the zipped list sees a
`none` iff the error list holds one. -/
theorem zip_any_isNone (addrs : List String) (errs : List (Option String))
    (h : errs.length ≤ addrs.length) :
    ((addrs.zip errs).any fun p => p.2.isNone) = (errs.any fun e => e.isNone) := by
  induction addrs generalizing errs with
  | nil =>
    cases errs with
    | nil => rfl
    | cons e es => simp at h
  | cons a as ih =>
    cases errs with
    | nil => simp
    | cons e es =>
      simp only [List.zip_cons_cons, List.any_cons]
      rw [ih es (by simpa using h)]

/-- Peeling one entry off a shifted `List.range` map. -/
theorem range_map_shift (f : Nat → Nat) (t n : Nat) :
    (List.range (n + 1)).map (fun k => f (t + k)) =
      f t :: (List.range n).map (fun k => f (t + 1 + k)) := by
  rw [List.range_succ_eq_map, List.map_cons, List.map_map]
  refine congrArg₂ List.cons (by simp) ?_
  refine List.map_congr_left fun a ha => ?_
  simp only [Function.comp_apply]
  exact congrArg f (by omega)

/-- Invariants of the `logEntry` retry loop, proved by induction on the
fuel (which always dominates `10 - tries`): attempts stay within the
budget, the sleeps are exactly `retrySleepMs` of the completed-attempt
counts, the loop runs past a status check only when it did not read
`Closed`, a closed-stop really saw `Closed`, and `LogOnce` calls match
`failedMessages` increments, one per failed attempt. -/
theorem logEntryLoop_spec (fails closed : Nat → Bool) :
    ∀ fuel t, fuel + t = 11 → t ≤ 10 →
      (t ≤ (logEntryLoop fails closed fuel t).attempts ∧
        (logEntryLoop fails closed fuel t).attempts ≤ 10) ∧
      (logEntryLoop fails closed fuel t).sleeps =
        (List.range ((logEntryLoop fails closed fuel t).attempts - max t 1)).map
          (fun k => retrySleepMs (max t 1 + k)) ∧
      (∀ u, 0 < u → t ≤ u → u < (logEntryLoop fails closed fuel t).attempts →
        closed u = false) ∧
      ((logEntryLoop fails closed fuel t).closedStop = true →
        closed ((logEntryLoop fails closed fuel t).attempts) = true ∧
        (logEntryLoop fails closed fuel t).delivered = false) ∧
      (logEntryLoop fails closed fuel t).logOnceCalls =
        (logEntryLoop fails closed fuel t).dFailed ∧
      (logEntryLoop fails closed fuel t).dFailed +
          (if (logEntryLoop fails closed fuel t).delivered then 1 else 0) =
        (logEntryLoop fails closed fuel t).attempts - t := by
  intro fuel
  induction fuel with
  | zero => intro t h1 h2; omega
  | succ fuel ih =>
    intro t h1 h2
    by_cases ht : 0 < t
    · have hmax : max t 1 = t := by omega
      by_cases h10 : 10 ≤ t
      · simp only [logEntryLoop, if_pos ht, if_pos h10, hmax]
        refine ⟨⟨le_refl _, h2⟩, by simp, ?_, by simp, by simp, by simp⟩
        intro u hu0 htu hut
        omega
      · by_cases hcl : closed t = true
        · simp only [logEntryLoop, if_pos ht, if_neg h10, if_pos hcl, hmax]
          refine ⟨⟨le_refl _, h2⟩, by simp, ?_, ?_, by simp, by simp⟩
          · intro u hu0 htu hut
            omega
          · exact fun _ => ⟨hcl, by simp⟩
        · by_cases hfa : fails (t + 1) = true
          · obtain ⟨⟨ihA1, ihA2⟩, ihB, ihC, ihD, ihE, ihF⟩ :=
              ih (t + 1) (by omega) (by omega)
            rw [show max (t + 1) 1 = t + 1 from by omega] at ihB
            simp only [logEntryLoop, if_pos ht, if_neg h10, if_neg hcl, if_pos hfa, hmax]
            refine ⟨⟨by omega, ihA2⟩, ?_, ?_, ihD, by omega, ?_⟩
            · rw [ihB,
                show (logEntryLoop fails closed fuel (t + 1)).attempts - t
                    = ((logEntryLoop fails closed fuel (t + 1)).attempts - (t + 1)) + 1
                  from by omega,
                range_map_shift]
            · intro u hu0 htu hut
              rcases eq_or_lt_of_le htu with heq | hlt
              · rw [← heq]
                simpa using hcl
              · exact ihC u hu0 (by omega) hut
            · cases hdel : (logEntryLoop fails closed fuel (t + 1)).delivered <;>
                simp [hdel] at ihF ⊢ <;> omega
          · simp only [logEntryLoop, if_pos ht, if_neg h10, if_neg hcl, if_neg hfa, hmax]
            refine ⟨⟨by omega, by omega⟩, ?_, ?_, ?_, ?_, ?_⟩
            · rw [show t + 1 - t = 0 + 1 from by omega, range_map_shift,
                List.range_zero, List.map_nil]
            · intro u hu0 htu hut
              have hut' : u = t := by omega
              rw [hut']
              simpa using hcl
            · simp
            · trivial
            · simp
    · have ht0 : t = 0 := by omega
      subst ht0
      by_cases hfa : fails 1 = true
      · obtain ⟨⟨ihA1, ihA2⟩, ihB, ihC, ihD, ihE, ihF⟩ := ih 1 (by omega) (by omega)
        have hstep : logEntryLoop fails closed (fuel + 1) 0 =
            ⟨(logEntryLoop fails closed fuel 1).attempts,
              (logEntryLoop fails closed fuel 1).sleeps,
              (logEntryLoop fails closed fuel 1).logOnceCalls + 1,
              (logEntryLoop fails closed fuel 1).dFailed + 1,
              (logEntryLoop fails closed fuel 1).closedStop,
              (logEntryLoop fails closed fuel 1).delivered⟩ := by
          simp [logEntryLoop, hfa]
        rw [hstep]
        dsimp only
        refine ⟨⟨by omega, ihA2⟩, ?_, ?_, ihD, by omega, ?_⟩
        · rw [show (max 0 1 : Nat) = 1 from rfl]
          rw [show (max 1 1 : Nat) = 1 from rfl] at ihB
          exact ihB
        · intro u hu0 htu hut
          exact ihC u hu0 (by omega) hut
        · cases hdel : (logEntryLoop fails closed fuel 1).delivered <;>
            simp [hdel] at ihF ⊢ <;> omega
      · have hstep : logEntryLoop fails closed (fuel + 1) 0 =
            ⟨1, [], 0, 0, false, true⟩ := by
          simp [logEntryLoop, hfa]
        rw [hstep]
        dsimp only
        refine ⟨⟨by omega, by omega⟩, ?_, ?_, by simp, rfl, by simp⟩
        · rw [show (max 0 1 : Nat) = 1 from rfl]
          simp
        · intro u hu0 htu hut
          omega

/-- Claim C4: for every entry handed to `logEntry`, there are at most
10 send attempts; the sleeps between attempts are exactly
`min((tries+2)^2, 1000)` milliseconds with `tries` the number of
completed attempts; the loop never continues past a loop-top check that
read `Closed` (and a closed-stop saw `Closed` with nothing delivered);
and each failed attempt produces one `LogOnce` call and one
`failedMessages` increment. -/
theorem claim_C4 (marshalOk : Bool) (fails closed : Nat → Bool) :
    (∀ tr : Nat, retrySleepMs tr = min ((tr + 2) ^ 2) 1000) ∧
    (logEntry marshalOk fails closed).attempts ≤ 10 ∧
    (logEntry marshalOk fails closed).sleeps =
      (List.range ((logEntry marshalOk fails closed).attempts - 1)).map
        (fun k => retrySleepMs (k + 1)) ∧
    (∀ u, 0 < u → u < (logEntry marshalOk fails closed).attempts → closed u = false) ∧
    ((logEntry marshalOk fails closed).closedStop = true →
      closed ((logEntry marshalOk fails closed).attempts) = true ∧
      (logEntry marshalOk fails closed).delivered = false) ∧
    (marshalOk = true →
      (logEntry marshalOk fails closed).logOnceCalls =
        (logEntry marshalOk fails closed).dFailed ∧
      (logEntry marshalOk fails closed).dFailed +
          (if (logEntry marshalOk fails closed).delivered then 1 else 0) =
        (logEntry marshalOk fails closed).attempts) ∧
    (marshalOk = false →
      (logEntry marshalOk fails closed).attempts = 0 ∧
      (logEntry marshalOk fails closed).dFailed = 1 ∧
      (logEntry marshalOk fails closed).logOnceCalls = 0) := by
  cases marshalOk
  · exact ⟨fun tr => rfl, by simp [logEntry], by simp [logEntry],
      fun u hu0 hu => absurd hu (by simp [logEntry]),
      by simp [logEntry], by simp, fun _ => ⟨rfl, rfl, rfl⟩⟩
  · have hconv : logEntry true fails closed = logEntryLoop fails closed 11 0 := rfl
    obtain ⟨⟨hA1, hA2⟩, hB, hC, hD, hE, hF⟩ :=
      logEntryLoop_spec fails closed 11 0 rfl (by omega)
    rw [show (max 0 1 : Nat) = 1 from rfl] at hB
    refine ⟨fun tr => rfl, ?_, ?_, ?_, ?_, ?_, by simp⟩
    · rw [hconv]
      exact hA2
    · rw [hconv, hB]
      refine List.map_congr_left fun k hk => ?_
      exact congrArg retrySleepMs (by omega)
    · intro u hu0 hu
      rw [hconv] at hu
      exact hC u hu0 (by omega) hu
    · rw [hconv]
      exact hD
    · intro hmo
      rw [hconv]
      refine ⟨hE, ?_⟩
      omega

/-- Witness for claim C4: two rejections then success. -/
theorem claim_C4_witness :
    (logEntry true failsUntil3 closedNever).attempts ≤ 10 ∧
    closedNever 1 = false ∧
    (logEntry true failsUntil3 closedNever).logOnceCalls =
      (logEntry true failsUntil3 closedNever).dFailed :=
  ⟨(claim_C4 true failsUntil3 closedNever).2.1,
   (claim_C4 true failsUntil3 closedNever).2.2.2.1 1 (by decide) (by decide),
   ((claim_C4 true failsUntil3 closedNever).2.2.2.2.2.1 rfl).1⟩

/-- Claim C1 fails on the code: with no durable store, a full channel,
the remote reachable and fewer than 16 workers, `Send` reaches the
blocking `h.logCh <- entry` (here without even spawning a worker, since
`lastStarted` is recent), so it waits for a channel slot instead of
returning. -/
theorem claim_C1_counterexample :
    fullOnlineObs.hasStore = false ∧
    sendCall fullOnlineObs =
      { outcome := .blockingEnqueue false, dTotal := 0, dFailed := 0, isErr := false } ∧
    (sendCall fullOnlineObs).outcome.blocksOnChannel = true := by
  decide

/-- Claim C1, amended: for a `Target` without a durable store, `Send`
waits on the in-memory channel exactly when the channel is full, the
target is not closed, the channel is live, the `IsOnline` probe
succeeds and fewer than `maxWorkers` workers run; on every other path
it returns without waiting (enqueue, drop, or buffer-full error). -/
theorem claim_C1_amended (s : SendObs) (h : s.hasStore = false) :
    (sendCall s).outcome.blocksOnChannel = true ↔
      (s.status ≠ .closed ∧ s.chAlive = true ∧ s.chCap ≤ s.chLen ∧
        s.remoteOnline = true ∧ s.workers < maxWorkers) := by
  obtain ⟨hs, st, ca, len, cap, ro, w, ms, spf⟩ := s
  simp only at h
  subst h
  cases st <;> cases ca <;> cases ro <;>
    simp [sendCall, SendOutcome.blocksOnChannel] <;>
    split_ifs <;> simp_all [SendOutcome.blocksOnChannel]

/-- Witness for the amended claim C1 at a concrete observation. -/
theorem claim_C1_witness :
    fullOnlineObs.hasStore = false ∧
    ((sendCall fullOnlineObs).outcome.blocksOnChannel = true ↔
      (fullOnlineObs.status ≠ .closed ∧ fullOnlineObs.chAlive = true ∧
        fullOnlineObs.chCap ≤ fullOnlineObs.chLen ∧ fullOnlineObs.remoteOnline = true ∧
        fullOnlineObs.workers < maxWorkers)) :=
  ⟨rfl, claim_C1_amended fullOnlineObs rfl⟩

/-- Claim C5: the wrapped handler installed by `Server.Init` returns
503 with `Connection: close` and the server-closed message, leaving
`requestCount` untouched, whenever `inShutdown != 0`; otherwise it
increments `requestCount` (strictly after the shutdown check), runs the
user handler with the incremented count in effect, and the deferred
decrement restores the count on every return path. -/
theorem claim_C5 (inShutdown : Nat) (rc : Int) (resp : Option HttpResponse) :
    (inShutdown ≠ 0 →
      wrappedHandler inShutdown rc resp =
        { response := some { statusCode := 503, connectionClose := true,
                             body := errServerClosedMessage },
          countDuring := none, countAfter := rc, userInvoked := false }) ∧
    (inShutdown = 0 →
      (wrappedHandler inShutdown rc resp).countDuring = some (rc + 1) ∧
      (wrappedHandler inShutdown rc resp).countAfter = rc ∧
      (wrappedHandler inShutdown rc resp).userInvoked = true ∧
      (wrappedHandler inShutdown rc resp).response = resp) := by
  constructor <;> intro h <;> simp [wrappedHandler, h]

/-- Witness for claim C5, one invocation on each side of the gate. -/
theorem claim_C5_witness :
    wrappedHandler 1 7 none =
      { response := some { statusCode := 503, connectionClose := true,
                           body := errServerClosedMessage },
        countDuring := none, countAfter := 7, userInvoked := false } ∧
    (wrappedHandler 0 7 none).countDuring = some (7 + 1) :=
  ⟨(claim_C5 1 7 none).1 (by decide), ((claim_C5 0 7 none).2 rfl).1⟩

/-- Claim C6: `Shutdown` with no listener installed returns the
server-closed error without touching `inShutdown`; with a listener the
call increments `inShutdown`, so a second call sees a value above one
and returns the server-closed error; the counter never decreases, and
only the first call (counter was zero) goes on to close the listener
and poll for drain. -/
theorem claim_C6 (hasL : Bool) (n : Nat) (cf : Bool) (hn : n + 1 < uint32Mod) :
    (hasL = false →
      shutdownEntry hasL n cf = { outcome := .errServerClosed, inShutdownAfter := n }) ∧
    (hasL = true → (shutdownEntry hasL n cf).inShutdownAfter = n + 1 ∧
      (0 < n → (shutdownEntry hasL n cf).outcome = .errServerClosed)) ∧
    n ≤ (shutdownEntry hasL n cf).inShutdownAfter ∧
    ((shutdownEntry hasL n cf).outcome ≠ .errServerClosed →
      hasL = true ∧ n = 0 ∧ (shutdownEntry hasL n cf).inShutdownAfter = 1) := by
  have hmod : (n + 1) % uint32Mod = n + 1 := Nat.mod_eq_of_lt hn
  cases hasL
  · simp [shutdownEntry, hmod]
  · simp [shutdownEntry, hmod]
    split_ifs <;> simp_all

/-- Witness for claim C6: the second `Shutdown` call. -/
theorem claim_C6_witness :
    (shutdownEntry true 1 false).outcome = .errServerClosed ∧
    (shutdownEntry true 1 false).inShutdownAfter = 1 + 1 :=
  ⟨((claim_C6 true 1 false (by decide)).2.1 rfl).2 (by decide),
   ((claim_C6 true 1 false (by decide)).2.1 rfl).1⟩

/-- Claim C8: `SendFromStore` on a readable, marshallable entry deletes
the store entry exactly on a successful POST; a network/host-down send
error keeps the entry and returns `ErrNotConnected`; any other send
error increments `failedMessages`, keeps the entry, and returns a
non-nil error distinct from `ErrNotConnected`. -/
theorem claim_C8 (send : NetSend) (delOk : Bool) :
    (send = .delivered → (sendFromStore .found true send delOk).delCalled = true) ∧
    (send = .netDown →
      (sendFromStore .found true send delOk).delCalled = false ∧
      (sendFromStore .found true send delOk).ret = .errNotConnected) ∧
    (send = .rejected →
      (sendFromStore .found true send delOk).dFailed = 1 ∧
      (sendFromStore .found true send delOk).delCalled = false ∧
      (sendFromStore .found true send delOk).ret = .sendError ∧
      (sendFromStore .found true send delOk).ret ≠ .ok ∧
      (sendFromStore .found true send delOk).ret ≠ .errNotConnected) := by
  cases send <;> cases delOk <;> decide

/-- Witness for claim C8: a host-down send keeps the entry for retry. -/
theorem claim_C8_witness :
    (sendFromStore .found true .netDown true).delCalled = false ∧
    (sendFromStore .found true .netDown true).ret = .errNotConnected :=
  (claim_C8 .netDown true).2.1 rfl

/-- Claim C9 fails on the code: `NewServer` sets only `MaxHeaderBytes`;
the idle, read-header and shutdown timeouts stay at their Go zero
value, not at the documented defaults. -/
theorem claim_C9_counterexample :
    (newServer ["127.0.0.1:9000"]).idleTimeoutNs ≠ defaultIdleTimeoutNs ∧
    (newServer ["127.0.0.1:9000"]).readHeaderTimeoutNs ≠ defaultReadHeaderTimeoutNs ∧
    (newServer ["127.0.0.1:9000"]).shutdownTimeoutNs ≠ defaultShutdownTimeoutNs ∧
    (newServer ["127.0.0.1:9000"]).maxHeaderBytes = defaultMaxHeaderBytes := by
  decide

/-- Claim C9, amended: `NewServer` applies only the max-header-bytes
default (1 MiB); the timeout fields remain zero.  The documented
values — idle 30 s, read-header 30 s, shutdown 5 s — are declared as
default constants and take effect only through the `Use*` setters. -/
theorem claim_C9_amended (addrs : List String) (d : Nat) :
    (newServer addrs).maxHeaderBytes = mib ∧
    (newServer addrs).idleTimeoutNs = 0 ∧
    (newServer addrs).readHeaderTimeoutNs = 0 ∧
    (newServer addrs).shutdownTimeoutNs = 0 ∧
    defaultIdleTimeoutNs = 30 * 1000000000 ∧
    defaultReadHeaderTimeoutNs = 30 * 1000000000 ∧
    defaultShutdownTimeoutNs = 5 * 1000000000 ∧
    defaultMaxHeaderBytes = 1048576 ∧
    (useIdleTimeout (newServer addrs) d).idleTimeoutNs = d ∧
    (useReadHeaderTimeout (newServer addrs) d).readHeaderTimeoutNs = d ∧
    (useShutdownTimeout (newServer addrs) d).shutdownTimeoutNs = d :=
  ⟨rfl, rfl, rfl, rfl, rfl, rfl, rfl, rfl, rfl, rfl, rfl⟩

/-- Claim C10: both full-channel drop paths of `Send` (remote offline,
and workers already at the maximum) bump `totalMessages` as well as
`failedMessages` and return an error, so the dropped entry counts in
the `Stats` snapshot. -/
theorem claim_C10 (s : SendObs) (c : Counters) (q : Nat)
    (h : (sendCall s).outcome = .fullOffline ∨ (sendCall s).outcome = .fullMaxWorkers) :
    (sendCall s).dTotal = 1 ∧ (sendCall s).dFailed = 1 ∧ (sendCall s).isErr = true ∧
    (stats (applySend c (sendCall s)) q).totalMessages = (stats c q).totalMessages + 1 ∧
    (stats (applySend c (sendCall s)) q).failedMessages = (stats c q).failedMessages + 1 := by
  simp only [sendCall] at h ⊢
  split_ifs at h ⊢ <;> simp_all [stats, applySend]

/-- Claim C2 fails on the code as stated "for every Target": for a
store-backed target, `Send` routes to `store.Put` before any status
check, so after `Cancel` the entry is still delivered to the durable
store. -/
theorem claim_C2_counterexample :
    (run (newTarget true 4) storeAfterCancelTrace).map
        (fun s => (s.status, s.storeEntries)) = some (.closed, 1) := by
  decide

/-- Claim C2, amended: after `Cancel` the status stays `Closed` under
every step (and neither workers nor the channel grow), and for a
`Target` without a durable store a subsequent `Send` is a no-op
returning nil; a store-backed target keeps delivering entries to its
store. -/
theorem claim_C2_amended :
    (∀ (s u : TState) (e : TStep), stepFn s e = some u → s.status = .closed →
      u.status = .closed ∧ u.workers ≤ s.workers ∧ u.chLen ≤ s.chLen) ∧
    (∀ obs : SendObs, obs.hasStore = false → obs.status = .closed →
      sendCall obs =
        { outcome := .droppedClosed, dTotal := 0, dFailed := 0, isErr := false }) := by
  constructor
  · intro s u e h hc
    cases e with
    | initStore =>
      simp only [stepFn] at h
      split at h
      · injection h with h; subst h; exact ⟨hc, le_refl _, le_refl _⟩
      · exact Option.noConfusion h
    | sendStore =>
      simp only [stepFn] at h
      split at h
      · injection h with h; subst h; exact ⟨hc, le_refl _, le_refl _⟩
      · exact Option.noConfusion h
    | sendEnq =>
      simp only [stepFn] at h
      split at h
      · rename_i hg; exact absurd hc hg.2.1
      · exact Option.noConfusion h
    | sendClosed =>
      simp only [stepFn] at h
      split at h
      · injection h with h; subst h; exact ⟨hc, le_refl _, le_refl _⟩
      · exact Option.noConfusion h
    | sendFullOffline =>
      simp only [stepFn] at h
      split at h
      · injection h with h; subst h; exact ⟨hc, le_refl _, le_refl _⟩
      · exact Option.noConfusion h
    | sendFullSpawn elapsed =>
      simp only [stepFn] at h
      split at h
      · rename_i hg; exact absurd hc hg.2.1
      · exact Option.noConfusion h
    | sendFullMax =>
      simp only [stepFn] at h
      split at h
      · injection h with h; subst h; exact ⟨hc, le_refl _, le_refl _⟩
      · exact Option.noConfusion h
    | initChan ro =>
      simp only [stepFn] at h
      split at h
      · exact Option.noConfusion h
      · rw [hc] at h
        injection h with h; subst h; exact ⟨hc, le_refl _, le_refl _⟩
    | reviveTick ro =>
      simp only [stepFn] at h
      split at h
      · rw [if_pos (by rw [hc]; decide)] at h
        injection h with h; subst h; exact ⟨hc, le_refl _, le_refl _⟩
      · exact Option.noConfusion h
    | workerTake =>
      simp only [stepFn] at h
      split at h
      · injection h with h; subst h
        refine ⟨hc, le_refl _, ?_⟩
        dsimp only
        split <;> omega
      · exact Option.noConfusion h
    | workerExit =>
      simp only [stepFn] at h
      split at h
      · injection h with h; subst h
        exact ⟨hc, Nat.sub_le _ _, le_refl _⟩
      · exact Option.noConfusion h
    | cancel =>
      simp only [stepFn] at h
      split at h
      · rename_i hg; exact absurd hc hg.1
      · exact Option.noConfusion h
  · intro obs h1 h2
    simp [sendCall, h1, h2]

/-- Witness for the amended claim C2: a closed target draining its last
buffered entry, and a `Send` call on a closed store-less target. -/
theorem claim_C2_witness :
    (closedDrained.status = .closed ∧ closedDrained.workers ≤ closedDraining.workers ∧
      closedDrained.chLen ≤ closedDraining.chLen) ∧
    sendCall closedObs =
      { outcome := .droppedClosed, dTotal := 0, dFailed := 0, isErr := false } :=
  ⟨claim_C2_amended.1 closedDraining closedDrained .workerTake (by decide) rfl,
   claim_C2_amended.2 closedObs rfl rfl⟩

/-- Claim C3 is violated by the code: this trace reaches a state with
17 live workers.  Sixteen full-channel `Send` calls each spawn a worker
while the status is still Offline (the probe succeeds because the
remote answers, even if with errors), and a later `Init` CASes
Offline→Online and unconditionally starts one more worker, exceeding
`maxWorkers`. -/
theorem claim_C3_seventeen_workers :
    (run (newTarget false 1) seventeenTrace).map (fun s => s.workers) =
      some (maxWorkers + 1) := by
  decide

/-- Claim C7: `Server.Init` fails with "no available interface found"
exactly when every address fails to bind; otherwise it returns a serve
closure and nil, and in all cases the listen-error callback is invoked
exactly once per failing address, with that address and its error, in
order. -/
theorem claim_C7 (addrs : List String) (errs : List (Option String))
    (hlen : errs.length = addrs.length) :
    ((∀ e ∈ errs, e.isSome = true) →
      serverInit addrs errs =
        { serveReady := false, errMsg := some "no available interface found",
          callbacks := (addrs.zip errs).filterMap fun p => p.2.map fun m => (p.1, m) }) ∧
    ((∃ e ∈ errs, e = none) →
      (serverInit addrs errs).serveReady = true ∧ (serverInit addrs errs).errMsg = none) ∧
    (serverInit addrs errs).callbacks =
      ((addrs.zip errs).filterMap fun p => p.2.map fun m => (p.1, m)) := by
  have hfound := initScan_found (addrs.zip errs)
  have hcb := initScan_callbacks (addrs.zip errs)
  have hany := zip_any_isNone addrs errs (le_of_eq hlen)
  refine ⟨?_, ?_, ?_⟩
  · intro hall
    have hf : (initScan (addrs.zip errs)).1 = false := by
      rw [hfound, hany]
      simp only [List.any_eq_false]
      intro e he
      cases e with
      | none => exact absurd (hall none he) (by simp)
      | some m => simp
    simp [serverInit, hf, hcb]
  · rintro ⟨e, he, rfl⟩
    have hf : (initScan (addrs.zip errs)).1 = true := by
      rw [hfound, hany, List.any_eq_true]
      exact ⟨none, he, rfl⟩
    simp [serverInit, hf]
  · have hsplit : (serverInit addrs errs).callbacks = (initScan (addrs.zip errs)).2 := by
      simp only [serverInit]
      split <;> rfl
    rw [hsplit, hcb]

/-- Witness for claim C7: one failing and one binding address. -/
theorem claim_C7_witness :
    (serverInit ["a", "b"] [some "boom", none]).serveReady = true ∧
    (serverInit ["a", "b"] [some "boom", none]).errMsg = none :=
  (claim_C7 ["a", "b"] [some "boom", none] (by decide)).2.1 ⟨none, by decide, rfl⟩

/-- Witness for claim C10 on the offline drop path. -/
theorem claim_C10_witness :
    (sendCall fullOfflineObs).dTotal = 1 ∧ (sendCall fullOfflineObs).dFailed = 1 ∧
    (sendCall fullOfflineObs).isErr = true ∧
    (stats (applySend ⟨5, 2⟩ (sendCall fullOfflineObs)) 4).totalMessages =
      (stats ⟨5, 2⟩ 4).totalMessages + 1 ∧
    (stats (applySend ⟨5, 2⟩ (sendCall fullOfflineObs)) 4).failedMessages =
      (stats ⟨5, 2⟩ 4).failedMessages + 1 :=
  claim_C10 fullOfflineObs ⟨5, 2⟩ 4 (Or.inl (by decide))

end MinioHttp
